import Mathlib

/-!
Verification development for the kvadmission package: the admission-control
integration layer between KV and admission control
(pkg/kv/kvserver/kvadmission/kvadmission.go).

The external admission subsystems (the general WorkQueue, the per-store
StoreWorkQueue coordinator, and the ElasticCPUWorkQueue) live outside this
package; their per-call outcomes are supplied through an environment record,
and the calls the controller makes into them are recorded as an event trace.
-/

namespace Kvadmission

/-- Admission source classification (roachpb.AdmissionHeader Source enum). -/
inductive Source where
  | other
  | fromSQL
  | rootKV
deriving DecidableEq, Repr

/-- The fields of roachpb.AdmissionHeader read by this package: Source,
Priority (an int32 in the proto) and CreateTime (int64 nanos). -/
structure AdmissionHeader where
  source : Source
  priority : Int
  createTime : Int
deriving DecidableEq, Repr

/-- The fields and predicates of roachpb.BatchRequest read by AdmitKVWork:
IsAdmin, IsWrite, IsSingleHeartbeatTxnRequest, IsSingleExportRequest, the
AdmissionHeader, and Replica.StoreID. -/
structure BatchRequest where
  isAdmin : Bool
  isWrite : Bool
  isSingleHeartbeatTxnRequest : Bool
  isSingleExportRequest : Bool
  admissionHeader : AdmissionHeader
  storeID : Int
deriving DecidableEq, Repr

/-- roachpb.IsSystemTenantID: the system tenant has ID 1. -/
def IsSystemTenantID (tenantID : Nat) : Bool := tenantID == 1

/-- Go conversion admissionpb.WorkPriority(p): int32 truncated to int8,
with two-complement wraparound. -/
def workPriority (p : Int) : Int := (p + 128) % 256 - 128

/-- admissionpb.NormalPri. -/
def NormalPri : Int := 0

/-- admission.WorkInfo as built by AdmitKVWork. -/
structure WorkInfo where
  tenantID : Nat
  priority : Int
  createTime : Int
  bypassAdmission : Bool
deriving DecidableEq, Repr

/-- admission.StoreWorkDoneInfo: the byte counts reported back to the store
work queue on completion. -/
structure StoreWorkDoneInfo where
  writeBytes : Int
  ingestedBytes : Int
deriving DecidableEq, Repr

/-- StoreWriteBytes aliases admission.StoreWorkDoneInfo (kvadmission.go). -/
abbrev StoreWriteBytes := StoreWorkDoneInfo

/-- The zero StoreWorkDoneInfo, used for no-work-done rollback reports. -/
def StoreWorkDoneInfo.zero : StoreWorkDoneInfo := { writeBytes := 0, ingestedBytes := 0 }

/-- Handle groups data around an admitted piece of work. storeAdmissionQ is
true when the Go field holds a non-nil queue reference (recorded only when
store admission charging was enabled); elasticCPUWorkHandle is true when the
Go field holds a non-nil elastic CPU work handle. -/
structure Handle where
  tenantID : Nat
  storeAdmissionQ : Bool
  elasticCPUWorkHandle : Bool
  callAdmittedWorkDoneOnKVAdmissionQ : Bool
deriving DecidableEq, Repr

/-- The zero-valued Handle, what Go returns as Handle{} on error paths. -/
def Handle.empty : Handle :=
  { tenantID := 0, storeAdmissionQ := false, elasticCPUWorkHandle := false,
    callAdmittedWorkDoneOnKVAdmissionQ := false }

/-- Outcomes of the external subsystem calls a single AdmitKVWork call can
make, supplied by the environment.

  - kvAdmissionQPresent: whether n.kvAdmissionQ is non-nil (all three
    subsystem references are nil or non-nil together).
  - storeQueuePresent: the result of storeGrantCoords.TryGetQueueForStore.
  - storeAdmitOutcome: error, or ok with the AdmissionEnabled bit of the
    returned StoreWorkHandle.
  - elasticAdmitOutcome: error, or ok with whether the returned elastic CPU
    work handle is non-nil.
  - kvAdmitOutcome: error, or ok with the returned
    callAdmittedWorkDoneOnKVAdmissionQ flag.
  - bulkOnlyEnabled: the KVBulkOnlyAdmissionControlEnabled cluster setting. -/
structure Env where
  kvAdmissionQPresent : Bool
  storeQueuePresent : Int → Bool
  storeAdmitOutcome : Except Unit Bool
  elasticAdmitOutcome : Except Unit Bool
  kvAdmitOutcome : Except Unit Bool
  bulkOnlyEnabled : Bool

/-- Calls the controller makes into the admission subsystems. Acquisition
events record the WorkInfo passed in and the relevant bit of the result;
completion events record the arguments of the completion call. -/
inductive Event where
  | storeAdmitted (info : WorkInfo) (admissionEnabled : Bool)
  | elasticAdmitted (info : WorkInfo) (handlePresent : Bool)
  | kvAdmitted (info : WorkInfo) (callFlag : Bool)
  | storeAdmittedWorkDone (doneInfo : StoreWorkDoneInfo)
  | elasticAdmittedWorkDone (handlePresent : Bool)
  | kvAdmittedWorkDone (tenantID : Nat)
deriving DecidableEq, Repr

/-- Result of one AdmitKVWork call: the returned Handle, whether an error
was returned, and the trace of subsystem calls made during the call. -/
structure AdmitResult where
  handle : Handle
  err : Bool
  trace : List Event
deriving DecidableEq, Repr

/-- The bypass and source classification of AdmitKVWork (kvadmission.go
lines 179 to 194), applied sequentially exactly as the code does:
start from IsAdmin; a non-system tenant forces bypass false and source
FROM_SQL; a source equal to OTHER (after that override) forces bypass true;
the bulk-only setting with priority at or above NormalPri forces bypass
true. -/
def computeBypassSource (bulkOnlyEnabled : Bool) (tenantID : Nat) (ba : BatchRequest) :
    Bool × Source :=
  let bypassAdmission := ba.isAdmin
  let source := ba.admissionHeader.source
  let (bypassAdmission, source) :=
    if !(IsSystemTenantID tenantID) then (false, Source.fromSQL)
    else (bypassAdmission, source)
  let bypassAdmission := if source == Source.other then true else bypassAdmission
  let bypassAdmission :=
    if bulkOnlyEnabled then
      if NormalPri ≤ workPriority ba.admissionHeader.priority then true else bypassAdmission
    else bypassAdmission
  (bypassAdmission, source)

/-- The admission.WorkInfo built by AdmitKVWork (kvadmission.go lines 195 to
206): create time defaults to the current time for non-bypassed requests
that carry a zero create time. -/
def mkAdmissionInfo (bulkOnlyEnabled : Bool) (now : Int) (tenantID : Nat) (ba : BatchRequest) :
    WorkInfo :=
  let bypassAdmission := (computeBypassSource bulkOnlyEnabled tenantID ba).1
  let createTime :=
    if !bypassAdmission && ba.admissionHeader.createTime == 0 then now
    else ba.admissionHeader.createTime
  { tenantID := tenantID
    priority := workPriority ba.admissionHeader.priority
    createTime := createTime
    bypassAdmission := bypassAdmission }

/-- controllerImpl.AdmitKVWork (kvadmission.go lines 171 to 271). The
deferred rollbacks of the Go code appear as the events appended on the
error returns: the store token rollback defer is registered only when store
admission succeeded with charging enabled, and fires on the later error
returns; the elastic rollback defer is registered only after the last
fallible step, so it never fires inside this call. -/
def AdmitKVWork (env : Env) (now : Int) (tenantID : Nat) (ba : BatchRequest) : AdmitResult :=
  let ah : Handle :=
    { tenantID := tenantID, storeAdmissionQ := false, elasticCPUWorkHandle := false,
      callAdmittedWorkDoneOnKVAdmissionQ := false }
  if !env.kvAdmissionQPresent then
    { handle := ah, err := false, trace := [] }
  else
    let admissionInfo := mkAdmissionInfo env.bulkOnlyEnabled now tenantID ba
    let storeStage : Except Unit (Handle × Bool × List Event) :=
      if ba.isWrite && !ba.isSingleHeartbeatTxnRequest then
        if env.storeQueuePresent ba.storeID then
          match env.storeAdmitOutcome with
          | Except.error _ => Except.error ()
          | Except.ok enabled =>
              if enabled then
                Except.ok ({ ah with storeAdmissionQ := true }, true,
                  [Event.storeAdmitted admissionInfo true])
              else
                Except.ok (ah, false, [Event.storeAdmitted admissionInfo false])
        else Except.ok (ah, true, [])
      else Except.ok (ah, true, [])
    match storeStage with
    | Except.error _ => { handle := Handle.empty, err := true, trace := [] }
    | Except.ok (ah1, admissionEnabled, tr1) =>
      let rollbackStore : List Event :=
        if ah1.storeAdmissionQ then [Event.storeAdmittedWorkDone StoreWorkDoneInfo.zero]
        else []
      if admissionEnabled then
        if ba.isSingleExportRequest then
          match env.elasticAdmitOutcome with
          | Except.error _ =>
              { handle := Handle.empty, err := true, trace := tr1 ++ rollbackStore }
          | Except.ok handlePresent =>
              { handle := { ah1 with elasticCPUWorkHandle := handlePresent }, err := false,
                trace := tr1 ++ [Event.elasticAdmitted admissionInfo handlePresent] }
        else
          match env.kvAdmitOutcome with
          | Except.error _ =>
              { handle := Handle.empty, err := true, trace := tr1 ++ rollbackStore }
          | Except.ok callFlag =>
              { handle := { ah1 with callAdmittedWorkDoneOnKVAdmissionQ := callFlag },
                err := false,
                trace := tr1 ++ [Event.kvAdmitted admissionInfo callFlag] }
      else { handle := ah1, err := false, trace := tr1 }

/-- controllerImpl.AdmittedKVWorkDone (kvadmission.go lines 274 to 295) as
the trace of completion calls it makes: it always calls elastic
AdmittedWorkDone with the (possibly nil) elastic handle, calls kv
AdmittedWorkDone when the flag is set, and calls store AdmittedWorkDone when
a store queue reference is held, with the given write bytes or the zero
value when nil. -/
def AdmittedKVWorkDone (ah : Handle) (writeBytes : Option StoreWriteBytes) : List Event :=
  [Event.elasticAdmittedWorkDone ah.elasticCPUWorkHandle]
  ++ (if ah.callAdmittedWorkDoneOnKVAdmissionQ then [Event.kvAdmittedWorkDone ah.tenantID]
      else [])
  ++ (if ah.storeAdmissionQ then
        [Event.storeAdmittedWorkDone
          (match writeBytes with
           | some wb => wb
           | none => StoreWorkDoneInfo.zero)]
      else [])

/-- A chargeable store token acquisition: the store queue admitted the work
with charging enabled. -/
def Event.isStoreAcq : Event → Bool
  | .storeAdmitted _ true => true
  | _ => false

/-- A store completion report (rollback or AdmittedKVWorkDone). -/
def Event.isStoreDone : Event → Bool
  | .storeAdmittedWorkDone _ => true
  | _ => false

/-- An elastic CPU token acquisition that returned a non-nil handle. -/
def Event.isElasticAcq : Event → Bool
  | .elasticAdmitted _ present => present
  | _ => false

/-- An elastic completion call that actually releases a token: the elastic
queue treats AdmittedWorkDone on a nil handle as a no-op, so only a call
with a present handle counts as a release. -/
def Event.isElasticRelease : Event → Bool
  | .elasticAdmittedWorkDone present => present
  | _ => false

/-- A general-queue admission that obligated a later completion call. -/
def Event.isKvAcq : Event → Bool
  | .kvAdmitted _ true => true
  | _ => false

/-- A general-queue completion call. -/
def Event.isKvDone : Event → Bool
  | .kvAdmittedWorkDone _ => true
  | _ => false

/-- Number of events in a trace satisfying a predicate. -/
def countP (p : Event → Bool) (tr : List Event) : Nat := (tr.filter p).length

/-- Number of tokens held by a Handle: the chargeable store token, the
elastic CPU token, and the general-queue completion obligation. -/
def Handle.tokenCount (ah : Handle) : Nat :=
  (if ah.storeAdmissionQ then 1 else 0) +
  (if ah.elasticCPUWorkHandle then 1 else 0) +
  (if ah.callAdmittedWorkDoneOnKVAdmissionQ then 1 else 0)

/-- Flags and poll data observed by one tick of the weight redistribution
loop: the two enablement cluster settings as read at the start of the tick,
and the store IDs in the TenantWeights the provider would return. -/
structure TickInput where
  kvWeightsEnabled : Bool
  kvStoresWeightsEnabled : Bool
  stores : List Int
deriving DecidableEq, Repr

/-- Calls one tick of the weight redistribution loop makes: the provider
poll, the node-weight pushes into the general and elastic queues, and the
per-store pushes. cleared records that the weights map was set to nil
before the push because the corresponding setting is disabled. -/
inductive WeightEvent where
  | getTenantWeights
  | setKvTenantWeights (cleared : Bool)
  | setElasticTenantWeights (cleared : Bool)
  | setStoreTenantWeights (storeID : Int) (cleared : Bool)
deriving DecidableEq, Repr

/-- One tick of the loop body in controllerImpl.SetTenantWeightProvider
(kvadmission.go lines 331 to 354): reads the two settings, skips entirely
when the previous tick already transitioned to all-disabled and both are
still disabled, otherwise polls the provider, pushes node weights (nil when
node weighting is disabled) into the general and elastic queues, pushes each
per-store entry whose store resolves to a queue (nil when store weighting is
disabled), and records the combined disabled state. Returns the new
allWeightsDisabled state and the calls made. -/
def weightTick (storeQueuePresent : Int → Bool) (allWeightsDisabled : Bool) (t : TickInput) :
    Bool × List WeightEvent :=
  let kvDisabled := !t.kvWeightsEnabled
  let kvStoresDisabled := !t.kvStoresWeightsEnabled
  if allWeightsDisabled && kvDisabled && kvStoresDisabled then
    (allWeightsDisabled, [])
  else
    let storeEvents := t.stores.filterMap fun sid =>
      if storeQueuePresent sid then some (WeightEvent.setStoreTenantWeights sid kvStoresDisabled)
      else none
    (kvDisabled && kvStoresDisabled,
      WeightEvent.getTenantWeights ::
        WeightEvent.setKvTenantWeights kvDisabled ::
        WeightEvent.setElasticTenantWeights kvDisabled :: storeEvents)

/-- The weight redistribution loop run over a finite sequence of ticks from
a given allWeightsDisabled state, returning each tick's calls. -/
def weightLoop (storeQueuePresent : Int → Bool) (allWeightsDisabled : Bool) :
    List TickInput → List (List WeightEvent)
  | [] => []
  | t :: ts =>
    let step := weightTick storeQueuePresent allWeightsDisabled t
    step.2 :: weightLoop storeQueuePresent step.1 ts

/-- controllerImpl.SetTenantWeightProvider starts the loop with
allWeightsDisabled initialized to false (kvadmission.go line 328). -/
def SetTenantWeightProvider (storeQueuePresent : Int → Bool) (ticks : List TickInput) :
    List (List WeightEvent) :=
  weightLoop storeQueuePresent false ticks

/-- Number of provider polls among the calls of one tick. -/
def providerCalls (evs : List WeightEvent) : Nat :=
  (evs.filter fun e =>
    match e with
    | WeightEvent.getTenantWeights => true
    | _ => false).length

/-- Both weighting settings disabled at this tick. -/
def bothDisabled (t : TickInput) : Bool :=
  !t.kvWeightsEnabled && !t.kvStoresWeightsEnabled

/-- FollowerStoreWriteBytes (kvadmission.go lines 399 to 402): an entry
count together with the embedded StoreWorkDoneInfo byte counts. -/
structure FollowerStoreWriteBytes where
  numEntries : Int
  writeBytes : Int
  ingestedBytes : Int
deriving DecidableEq, Repr

/-- FollowerStoreWriteBytes.Merge (kvadmission.go lines 405 to 409): pure
field-wise accumulation, rendered as a function returning the updated
receiver. -/
def FollowerStoreWriteBytes.Merge (f other : FollowerStoreWriteBytes) :
    FollowerStoreWriteBytes :=
  { numEntries := f.numEntries + other.numEntries
    writeBytes := f.writeBytes + other.writeBytes
    ingestedBytes := f.ingestedBytes + other.ingestedBytes }

/-- Pacer (kvadmission.go lines 440 to 446). cur is true when the Go field
holds a non-nil outstanding elastic CPU work handle. The unit and work-info
fields are carried but read only by the elastic queue. -/
structure Pacer where
  unit : Int
  wi : WorkInfo
  cur : Bool
deriving DecidableEq, Repr

/-- A possibly-nil Pacer pointer, and whether it currently holds a token. -/
def pacerHasToken : Option Pacer → Bool
  | none => false
  | some p => p.cur

/-- Environment for one Pacer.Pace call: the OverLimit result of the current
handle (false when the handle is nil) and the outcome of an elastic queue
Admit call (error, or ok with whether the returned handle is non-nil). -/
structure PaceEnv where
  overLimit : Bool
  admitOutcome : Except Unit Bool

/-- Pacer.Close (kvadmission.go lines 470 to 477): no-op on a nil Pacer or
when no token is outstanding; otherwise releases the one outstanding token
and clears it. Returns the updated pacer and the number of releases
performed (0 or 1). Close returns no error by its type. -/
def Pacer.close : Option Pacer → Option Pacer × Nat
  | none => (none, 0)
  | some p =>
    if !p.cur then (some p, 0)
    else (some { p with cur := false }, 1)

/-- Pacer.Pace (kvadmission.go lines 449 to 467): no-op returning no error
on a nil Pacer. If the current token is over its limit, release it; if no
token is held, admit into the elastic queue, propagating an error, else
store the returned handle. Returns the updated pacer, the number of
releases performed, and whether an error was returned. -/
def Pacer.pace : Option Pacer → PaceEnv → Option Pacer × Nat × Bool
  | none, _ => (none, 0, false)
  | some p, env =>
    let step := if p.cur && env.overLimit then ({ p with cur := false }, 1) else (p, 0)
    let p1 := step.1
    let rel1 := step.2
    if !p1.cur then
      match env.admitOutcome with
      | Except.error _ => (some p1, rel1, true)
      | Except.ok present => (some { p1 with cur := present }, rel1, false)
    else (some p1, rel1, false)

/-- Claim C7: FollowerStoreWriteBytes.Merge is pure field-wise addition and
is commutative and associative: merging in either association order yields
the same entry, write-byte and ingested-byte counts, and Merge a b equals
Merge b a field by field. -/
theorem followerStoreWriteBytes_merge_comm_assoc (a b c : FollowerStoreWriteBytes) :
    FollowerStoreWriteBytes.Merge (FollowerStoreWriteBytes.Merge a b) c =
      FollowerStoreWriteBytes.Merge a (FollowerStoreWriteBytes.Merge b c) ∧
    FollowerStoreWriteBytes.Merge a b = FollowerStoreWriteBytes.Merge b a := by
  refine ⟨?_, ?_⟩ <;>
    · simp only [FollowerStoreWriteBytes.Merge, FollowerStoreWriteBytes.mk.injEq]
      omega

/-- Claim C8: Pacer.Close is idempotent and total: two consecutive Close
calls perform exactly one release when a token was outstanding and zero
otherwise (in particular at most one release in total, and zero on a Pacer
that never acquired a token or on a nil Pacer), and neither Close nor Pace
on a nil Pacer errors: Pace on a nil Pacer is a no-op returning no error,
and Close returns no error by its type. -/
theorem pacer_close_idempotent (p : Option Pacer) (env : PaceEnv) :
    ((Pacer.close p).2 + (Pacer.close (Pacer.close p).1).2
      = if pacerHasToken p then 1 else 0) ∧
    (Pacer.close p).2 + (Pacer.close (Pacer.close p).1).2 ≤ 1 ∧
    Pacer.close none = (none, 0) ∧
    Pacer.pace none env = (none, 0, false) := by
  rcases p with _ | ⟨u, wi, cur⟩
  · simp [Pacer.close, pacerHasToken, Pacer.pace]
  · cases cur <;> simp [Pacer.close, pacerHasToken, Pacer.pace]

/-- Claim C3, counterexample: for a non-system tenant (tenant 2) whose
request declares source OTHER, the code first forces the source to FROM_SQL
and only then tests the source against OTHER, so the bypass decision comes
out false — while the claim states that a declared source of OTHER forces
bypass to true regardless of the tenant rule. -/
theorem bypass_declared_other_counterexample :
    (mkAdmissionInfo false 99 2
      { isAdmin := true, isWrite := false, isSingleHeartbeatTxnRequest := false,
        isSingleExportRequest := false,
        admissionHeader := { source := Source.other, priority := 0, createTime := 0 },
        storeID := 0 }).bypassAdmission = false ∧
    (computeBypassSource false 2
      { isAdmin := true, isWrite := false, isSingleHeartbeatTxnRequest := false,
        isSingleExportRequest := false,
        admissionHeader := { source := Source.other, priority := 0, createTime := 0 },
        storeID := 0 }).2 = Source.fromSQL := by decide

/-- Claim C3 as amended: the bypass decision follows the four rules with
later rules overriding earlier ones, except that rule 3 tests the source
value after the rule 2 override (for a non-system tenant the source has
been forced to FROM_SQL, so rule 3 only ever applies to the system tenant);
equivalently, the final decision is: bulk-only with at-or-above-normal
priority forces true, else a final source of OTHER forces true, else a
non-system tenant forces false, else the admin flag decides. The resulting
AdmissionInfo carries the final tenant, the int8-truncated priority and the
final bypass decision. -/
theorem bypass_precedence_amended (bulk : Bool) (now : Int) (tenantID : Nat)
    (ba : BatchRequest) :
    computeBypassSource bulk tenantID ba =
      ( if bulk && decide (NormalPri ≤ workPriority ba.admissionHeader.priority) then true
        else if (if IsSystemTenantID tenantID then ba.admissionHeader.source
                 else Source.fromSQL) == Source.other then true
        else if !(IsSystemTenantID tenantID) then false
        else ba.isAdmin,
        if IsSystemTenantID tenantID then ba.admissionHeader.source else Source.fromSQL ) ∧
    (mkAdmissionInfo bulk now tenantID ba).bypassAdmission
      = (computeBypassSource bulk tenantID ba).1 ∧
    (mkAdmissionInfo bulk now tenantID ba).tenantID = tenantID ∧
    (mkAdmissionInfo bulk now tenantID ba).priority = workPriority ba.admissionHeader.priority := by
  refine ⟨?_, by simp [mkAdmissionInfo], by simp [mkAdmissionInfo], by simp [mkAdmissionInfo]⟩
  unfold computeBypassSource
  cases hs : IsSystemTenantID tenantID <;>
    cases bulk <;>
      cases hsrc : ba.admissionHeader.source <;>
        by_cases hp : NormalPri ≤ workPriority ba.admissionHeader.priority <;>
          simp [hs, hsrc, hp]

/-- Claim C5: for a request whose header carries create time zero, the
AdmissionInfo built by AdmitKVWork uses the current time (hence a value at
or after the time of the call) as create time when the request is not
bypassed, and keeps create time zero when the request is bypassed. -/
theorem createTime_default (bulk : Bool) (now callTime : Int) (tenantID : Nat)
    (ba : BatchRequest) (h0 : ba.admissionHeader.createTime = 0) (hnow : callTime ≤ now) :
    ((mkAdmissionInfo bulk now tenantID ba).bypassAdmission = false →
      (mkAdmissionInfo bulk now tenantID ba).createTime = now ∧
      callTime ≤ (mkAdmissionInfo bulk now tenantID ba).createTime) ∧
    ((mkAdmissionInfo bulk now tenantID ba).bypassAdmission = true →
      (mkAdmissionInfo bulk now tenantID ba).createTime = 0) := by
  unfold mkAdmissionInfo
  cases hb : (computeBypassSource bulk tenantID ba).1 <;> simp [h0, hnow]

/-- Witness for createTime_default: a non-bypassed request with create time
zero at current time 5 and call time 3. -/
theorem createTime_default_witness :
    ({ isAdmin := false, isWrite := false, isSingleHeartbeatTxnRequest := false,
       isSingleExportRequest := false,
       admissionHeader := { source := Source.rootKV, priority := 0, createTime := 0 },
       storeID := 0 } : BatchRequest).admissionHeader.createTime = 0 ∧
    (3 : Int) ≤ 5 ∧
    (((mkAdmissionInfo false 5 1
        { isAdmin := false, isWrite := false, isSingleHeartbeatTxnRequest := false,
          isSingleExportRequest := false,
          admissionHeader := { source := Source.rootKV, priority := 0, createTime := 0 },
          storeID := 0 }).bypassAdmission = false →
      (mkAdmissionInfo false 5 1
        { isAdmin := false, isWrite := false, isSingleHeartbeatTxnRequest := false,
          isSingleExportRequest := false,
          admissionHeader := { source := Source.rootKV, priority := 0, createTime := 0 },
          storeID := 0 }).createTime = 5 ∧
      (3 : Int) ≤ (mkAdmissionInfo false 5 1
        { isAdmin := false, isWrite := false, isSingleHeartbeatTxnRequest := false,
          isSingleExportRequest := false,
          admissionHeader := { source := Source.rootKV, priority := 0, createTime := 0 },
          storeID := 0 }).createTime) ∧
    ((mkAdmissionInfo false 5 1
        { isAdmin := false, isWrite := false, isSingleHeartbeatTxnRequest := false,
          isSingleExportRequest := false,
          admissionHeader := { source := Source.rootKV, priority := 0, createTime := 0 },
          storeID := 0 }).bypassAdmission = true →
      (mkAdmissionInfo false 5 1
        { isAdmin := false, isWrite := false, isSingleHeartbeatTxnRequest := false,
          isSingleExportRequest := false,
          admissionHeader := { source := Source.rootKV, priority := 0, createTime := 0 },
          storeID := 0 }).createTime = 0)) :=
  ⟨by decide, by decide,
    createTime_default false 5 3 1
      { isAdmin := false, isWrite := false, isSingleHeartbeatTxnRequest := false,
        isSingleExportRequest := false,
        admissionHeader := { source := Source.rootKV, priority := 0, createTime := 0 },
        storeID := 0 } (by decide) (by decide)⟩

/-- Claim C10: a Handle returned by AdmitKVWork never holds both the elastic
CPU token and the general-queue completion obligation: the two admission
branches are mutually exclusive and both fields default to false. -/
theorem handle_elastic_kv_exclusive (env : Env) (now : Int) (tenantID : Nat)
    (ba : BatchRequest) :
    ((AdmitKVWork env now tenantID ba).handle.elasticCPUWorkHandle &&
      (AdmitKVWork env now tenantID ba).handle.callAdmittedWorkDoneOnKVAdmissionQ) = false := by
  obtain ⟨kvp, sqp, sao, eao, kao, bulk⟩ := env
  obtain ⟨adm, wr, hb, ex, hd, sid⟩ := ba
  cases kvp <;> cases wr <;> cases hb <;> cases ex <;>
    cases hsq : sqp sid <;>
      rcases sao with u | en <;> (try cases en) <;>
        rcases eao with u2 | hp <;> (try cases hp) <;>
          rcases kao with u3 | cf <;> (try cases cf) <;>
            simp [AdmitKVWork, hsq, Handle.empty]

/-- Helper: providerCalls of the empty call list. -/
theorem providerCalls_nil : providerCalls [] = 0 := rfl

/-- Helper: providerCalls over a cons. -/
theorem providerCalls_cons (e : WeightEvent) (evs : List WeightEvent) :
    providerCalls (e :: evs) =
      (match e with
       | WeightEvent.getTenantWeights => 1
       | _ => 0) + providerCalls evs := by
  cases e <;> simp [providerCalls, Nat.add_comm]

/-- Helper: the per-store push events of one tick contain no provider poll. -/
theorem providerCalls_storeEvents (sq : Int → Bool) (cl : Bool) (stores : List Int) :
    providerCalls (stores.filterMap fun sid =>
      if sq sid then some (WeightEvent.setStoreTenantWeights sid cl) else none) = 0 := by
  induction stores with
  | nil => rfl
  | cons hd tl ih =>
    by_cases h : sq hd <;> simp [h, providerCalls_cons, ih]

/-- Claim C6: once a tick has completed with both weighting flags disabled,
the loop state is all-disabled, and from that state every further tick with
both flags still disabled makes zero provider calls, while the first tick
with a flag re-enabled polls the provider exactly once. -/
theorem weight_loop_short_circuit (sq : Int → Bool) :
    (∀ s t, bothDisabled t = true → (weightTick sq s t).1 = true) ∧
    (∀ ts, (∀ t ∈ ts, bothDisabled t = true) →
      ∀ evs ∈ weightLoop sq true ts, providerCalls evs = 0) ∧
    (∀ t, bothDisabled t = false → providerCalls (weightTick sq true t).2 = 1) := by
  refine ⟨?_, ?_, ?_⟩
  · rintro s ⟨ke, kse, st⟩ h
    cases ke <;> cases kse <;> cases s <;> simp_all [bothDisabled, weightTick]
  · intro ts
    induction ts with
    | nil => simp [weightLoop]
    | cons t ts ih =>
      intro h evs hmem
      have ht : bothDisabled t = true := h _ (List.mem_cons_self _ _)
      have htick : weightTick sq true t = (true, []) := by
        obtain ⟨ke, kse, st⟩ := t
        cases ke <;> cases kse <;> simp_all [bothDisabled, weightTick]
      simp only [weightLoop, htick, List.mem_cons] at hmem
      rcases hmem with rfl | hmem
      · rfl
      · exact ih (fun x hx => h x (List.mem_cons_of_mem _ hx)) evs hmem
  · rintro ⟨ke, kse, st⟩ h
    cases ke <;> cases kse <;>
      simp_all [bothDisabled, weightTick, providerCalls_cons, providerCalls_storeEvents]

/-- Witness for weight_loop_short_circuit: a tick with both flags disabled
transitions the state to all-disabled; a subsequent all-disabled tick makes
zero provider calls; a tick with the node flag re-enabled polls once. -/
theorem weight_loop_short_circuit_witness :
    bothDisabled ⟨false, false, []⟩ = true ∧
    (weightTick (fun _ => true) false ⟨false, false, []⟩).1 = true ∧
    providerCalls (weightTick (fun _ => true) true ⟨false, false, []⟩).2 = 0 ∧
    bothDisabled ⟨true, false, []⟩ = false ∧
    providerCalls (weightTick (fun _ => true) true ⟨true, false, []⟩).2 = 1 :=
  ⟨by decide,
    (weight_loop_short_circuit (fun _ => true)).1 false ⟨false, false, []⟩ (by decide),
    (weight_loop_short_circuit (fun _ => true)).2.1 [⟨false, false, []⟩]
      (by decide) (weightTick (fun _ => true) true ⟨false, false, []⟩).2
      (by simp [weightLoop]),
    by decide,
    (weight_loop_short_circuit (fun _ => true)).2.2 ⟨true, false, []⟩ (by decide)⟩

/-- Claim C9: the loop starts with the all-disabled state initialized to
false, so its very first tick always polls the provider exactly once, even
when both weighting flags are already disabled; the disabled skip begins
only from the second consecutive all-disabled tick, as the two-tick run
shows with per-tick provider call counts 1 then 0. -/
theorem weight_loop_first_tick_polls (sq : Int → Bool) :
    (∀ t, providerCalls (weightTick sq false t).2 = 1) ∧
    (∀ t1 t2, bothDisabled t1 = true → bothDisabled t2 = true →
      (SetTenantWeightProvider sq [t1, t2]).map providerCalls = [1, 0]) := by
  have hfirst : ∀ t : TickInput, providerCalls (weightTick sq false t).2 = 1 := by
    rintro ⟨ke, kse, st⟩
    simp [weightTick, providerCalls_cons, providerCalls_storeEvents]
  refine ⟨hfirst, ?_⟩
  rintro ⟨ke1, kse1, st1⟩ ⟨ke2, kse2, st2⟩ h1 h2
  cases ke1 <;> cases kse1 <;> cases ke2 <;> cases kse2 <;>
    simp_all [bothDisabled, SetTenantWeightProvider, weightLoop, weightTick,
      providerCalls_nil, providerCalls_cons, providerCalls_storeEvents]

/-- Witness for weight_loop_first_tick_polls: with both flags disabled from
the start, the first tick polls once and the second is skipped. -/
theorem weight_loop_first_tick_polls_witness :
    providerCalls (weightTick (fun _ => true) false ⟨false, false, []⟩).2 = 1 ∧
    bothDisabled ⟨false, false, []⟩ = true ∧
    (SetTenantWeightProvider (fun _ => true)
      [⟨false, false, []⟩, ⟨false, false, []⟩]).map providerCalls = [1, 0] :=
  ⟨(weight_loop_first_tick_polls (fun _ => true)).1 ⟨false, false, []⟩,
    by decide,
    (weight_loop_first_tick_polls (fun _ => true)).2 ⟨false, false, []⟩ ⟨false, false, []⟩
      (by decide) (by decide)⟩

/-- Claim C1: whenever AdmitKVWork returns an error, the caller receives the
zero-valued Handle, every chargeable store token acquired during the call
has a matching store completion call in the trace of the same call (emitted
by the rollback defer, hence before the return), every such rollback
completion reports the zero-byte no-work-done outcome, and no elastic or
general-queue token remains acquired (none was acquired on any error path),
so no outcome leaves a token unreleased. -/
theorem admit_error_all_tokens_released (env : Env) (now : Int) (tenantID : Nat)
    (ba : BatchRequest) (h : (AdmitKVWork env now tenantID ba).err = true) :
    (AdmitKVWork env now tenantID ba).handle = Handle.empty ∧
    countP Event.isStoreDone (AdmitKVWork env now tenantID ba).trace
      = countP Event.isStoreAcq (AdmitKVWork env now tenantID ba).trace ∧
    countP Event.isElasticAcq (AdmitKVWork env now tenantID ba).trace = 0 ∧
    countP Event.isKvAcq (AdmitKVWork env now tenantID ba).trace = 0 ∧
    countP Event.isElasticRelease (AdmitKVWork env now tenantID ba).trace = 0 ∧
    countP Event.isKvDone (AdmitKVWork env now tenantID ba).trace = 0 ∧
    ∀ e ∈ (AdmitKVWork env now tenantID ba).trace, Event.isStoreDone e = true →
      e = Event.storeAdmittedWorkDone StoreWorkDoneInfo.zero := by
  obtain ⟨kvp, sqp, sao, eao, kao, bulk⟩ := env
  obtain ⟨adm, wr, hb, ex, hd, sid⟩ := ba
  cases kvp <;> cases wr <;> cases hb <;> cases ex <;>
    cases hsq : sqp sid <;>
      rcases sao with u | en <;> (try cases en) <;>
        rcases eao with u2 | hp <;> (try cases hp) <;>
          rcases kao with u3 | cf <;> (try cases cf) <;>
            simp_all [AdmitKVWork, countP, Event.isStoreAcq, Event.isStoreDone,
              Event.isElasticAcq, Event.isElasticRelease, Event.isKvAcq, Event.isKvDone,
              Handle.empty]

/-- Witness for admit_error_all_tokens_released: store admission succeeds
with charging enabled, then the elastic-CPU admission fails; the store token
is rolled back with the zero-byte outcome and the empty Handle is returned
with the error. -/
theorem admit_error_all_tokens_released_witness :
    (AdmitKVWork
      { kvAdmissionQPresent := true, storeQueuePresent := fun _ => true,
        storeAdmitOutcome := Except.ok true, elasticAdmitOutcome := Except.error (),
        kvAdmitOutcome := Except.ok true, bulkOnlyEnabled := false }
      5 1
      { isAdmin := false, isWrite := true, isSingleHeartbeatTxnRequest := false,
        isSingleExportRequest := true,
        admissionHeader := { source := Source.rootKV, priority := 0, createTime := 3 },
        storeID := 7 }).err = true ∧
    (AdmitKVWork
      { kvAdmissionQPresent := true, storeQueuePresent := fun _ => true,
        storeAdmitOutcome := Except.ok true, elasticAdmitOutcome := Except.error (),
        kvAdmitOutcome := Except.ok true, bulkOnlyEnabled := false }
      5 1
      { isAdmin := false, isWrite := true, isSingleHeartbeatTxnRequest := false,
        isSingleExportRequest := true,
        admissionHeader := { source := Source.rootKV, priority := 0, createTime := 3 },
        storeID := 7 }).handle = Handle.empty ∧
    countP Event.isStoreDone (AdmitKVWork
      { kvAdmissionQPresent := true, storeQueuePresent := fun _ => true,
        storeAdmitOutcome := Except.ok true, elasticAdmitOutcome := Except.error (),
        kvAdmitOutcome := Except.ok true, bulkOnlyEnabled := false }
      5 1
      { isAdmin := false, isWrite := true, isSingleHeartbeatTxnRequest := false,
        isSingleExportRequest := true,
        admissionHeader := { source := Source.rootKV, priority := 0, createTime := 3 },
        storeID := 7 }).trace
      = countP Event.isStoreAcq (AdmitKVWork
      { kvAdmissionQPresent := true, storeQueuePresent := fun _ => true,
        storeAdmitOutcome := Except.ok true, elasticAdmitOutcome := Except.error (),
        kvAdmitOutcome := Except.ok true, bulkOnlyEnabled := false }
      5 1
      { isAdmin := false, isWrite := true, isSingleHeartbeatTxnRequest := false,
        isSingleExportRequest := true,
        admissionHeader := { source := Source.rootKV, priority := 0, createTime := 3 },
        storeID := 7 }).trace :=
  ⟨by decide,
    (admit_error_all_tokens_released
      { kvAdmissionQPresent := true, storeQueuePresent := fun _ => true,
        storeAdmitOutcome := Except.ok true, elasticAdmitOutcome := Except.error (),
        kvAdmitOutcome := Except.ok true, bulkOnlyEnabled := false }
      5 1
      { isAdmin := false, isWrite := true, isSingleHeartbeatTxnRequest := false,
        isSingleExportRequest := true,
        admissionHeader := { source := Source.rootKV, priority := 0, createTime := 3 },
        storeID := 7 } (by decide)).1,
    (admit_error_all_tokens_released
      { kvAdmissionQPresent := true, storeQueuePresent := fun _ => true,
        storeAdmitOutcome := Except.ok true, elasticAdmitOutcome := Except.error (),
        kvAdmitOutcome := Except.ok true, bulkOnlyEnabled := false }
      5 1
      { isAdmin := false, isWrite := true, isSingleHeartbeatTxnRequest := false,
        isSingleExportRequest := true,
        admissionHeader := { source := Source.rootKV, priority := 0, createTime := 3 },
        storeID := 7 } (by decide)).2.1⟩

set_option maxHeartbeats 2000000 in
/-- Claim C2: for a successful AdmitKVWork call, the call itself performs no
completion, and one AdmittedKVWorkDone on the returned Handle performs
exactly one completion per acquired token, kind by kind: its store, elastic
and general-queue release counts each equal the corresponding acquisition
count of the admission call, the token count of the Handle equals the total
number of acquisitions, and at most two tokens are ever held. -/
theorem admit_success_exactly_once_completion (env : Env) (now : Int) (tenantID : Nat)
    (ba : BatchRequest) (wb : Option StoreWriteBytes)
    (h : (AdmitKVWork env now tenantID ba).err = false) :
    countP Event.isStoreDone (AdmitKVWork env now tenantID ba).trace = 0 ∧
    countP Event.isElasticRelease (AdmitKVWork env now tenantID ba).trace = 0 ∧
    countP Event.isKvDone (AdmitKVWork env now tenantID ba).trace = 0 ∧
    countP Event.isStoreDone
        (AdmittedKVWorkDone (AdmitKVWork env now tenantID ba).handle wb)
      = countP Event.isStoreAcq (AdmitKVWork env now tenantID ba).trace ∧
    countP Event.isElasticRelease
        (AdmittedKVWorkDone (AdmitKVWork env now tenantID ba).handle wb)
      = countP Event.isElasticAcq (AdmitKVWork env now tenantID ba).trace ∧
    countP Event.isKvDone
        (AdmittedKVWorkDone (AdmitKVWork env now tenantID ba).handle wb)
      = countP Event.isKvAcq (AdmitKVWork env now tenantID ba).trace ∧
    (AdmitKVWork env now tenantID ba).handle.tokenCount
      = countP Event.isStoreAcq (AdmitKVWork env now tenantID ba).trace
        + countP Event.isElasticAcq (AdmitKVWork env now tenantID ba).trace
        + countP Event.isKvAcq (AdmitKVWork env now tenantID ba).trace ∧
    (AdmitKVWork env now tenantID ba).handle.tokenCount ≤ 2 := by
  obtain ⟨kvp, sqp, sao, eao, kao, bulk⟩ := env
  obtain ⟨adm, wr, hb, ex, hd, sid⟩ := ba
  cases kvp <;> cases wr <;> cases hb <;> cases ex <;>
    cases hsq : sqp sid <;>
      rcases sao with u | en <;> (try cases en) <;>
        rcases eao with u2 | hp <;> (try cases hp) <;>
          rcases kao with u3 | cf <;> (try cases cf) <;>
            simp_all [AdmitKVWork, AdmittedKVWorkDone, countP, Event.isStoreAcq,
              Event.isStoreDone, Event.isElasticAcq, Event.isElasticRelease,
              Event.isKvAcq, Event.isKvDone, Handle.tokenCount]

/-- Witness for admit_success_exactly_once_completion: a chargeable store
token plus a general-queue completion obligation (two tokens) are acquired,
and the single AdmittedKVWorkDone releases each exactly once. -/
theorem admit_success_exactly_once_completion_witness :
    (AdmitKVWork
      { kvAdmissionQPresent := true, storeQueuePresent := fun _ => true,
        storeAdmitOutcome := Except.ok true, elasticAdmitOutcome := Except.ok true,
        kvAdmitOutcome := Except.ok true, bulkOnlyEnabled := false }
      5 1
      { isAdmin := false, isWrite := true, isSingleHeartbeatTxnRequest := false,
        isSingleExportRequest := false,
        admissionHeader := { source := Source.rootKV, priority := 0, createTime := 3 },
        storeID := 7 }).err = false ∧
    (AdmitKVWork
      { kvAdmissionQPresent := true, storeQueuePresent := fun _ => true,
        storeAdmitOutcome := Except.ok true, elasticAdmitOutcome := Except.ok true,
        kvAdmitOutcome := Except.ok true, bulkOnlyEnabled := false }
      5 1
      { isAdmin := false, isWrite := true, isSingleHeartbeatTxnRequest := false,
        isSingleExportRequest := false,
        admissionHeader := { source := Source.rootKV, priority := 0, createTime := 3 },
        storeID := 7 }).handle.tokenCount = 2 ∧
    countP Event.isStoreDone
        (AdmittedKVWorkDone (AdmitKVWork
          { kvAdmissionQPresent := true, storeQueuePresent := fun _ => true,
            storeAdmitOutcome := Except.ok true, elasticAdmitOutcome := Except.ok true,
            kvAdmitOutcome := Except.ok true, bulkOnlyEnabled := false }
          5 1
          { isAdmin := false, isWrite := true, isSingleHeartbeatTxnRequest := false,
            isSingleExportRequest := false,
            admissionHeader := { source := Source.rootKV, priority := 0, createTime := 3 },
            storeID := 7 }).handle none)
      = countP Event.isStoreAcq (AdmitKVWork
          { kvAdmissionQPresent := true, storeQueuePresent := fun _ => true,
            storeAdmitOutcome := Except.ok true, elasticAdmitOutcome := Except.ok true,
            kvAdmitOutcome := Except.ok true, bulkOnlyEnabled := false }
          5 1
          { isAdmin := false, isWrite := true, isSingleHeartbeatTxnRequest := false,
            isSingleExportRequest := false,
            admissionHeader := { source := Source.rootKV, priority := 0, createTime := 3 },
            storeID := 7 }).trace :=
  ⟨by decide, by decide,
    (admit_success_exactly_once_completion
      { kvAdmissionQPresent := true, storeQueuePresent := fun _ => true,
        storeAdmitOutcome := Except.ok true, elasticAdmitOutcome := Except.ok true,
        kvAdmitOutcome := Except.ok true, bulkOnlyEnabled := false }
      5 1
      { isAdmin := false, isWrite := true, isSingleHeartbeatTxnRequest := false,
        isSingleExportRequest := false,
        admissionHeader := { source := Source.rootKV, priority := 0, createTime := 3 },
        storeID := 7 } none (by decide)).2.2.2.1⟩

/-- Claim C4, counterexample: a bypassed request that is a write (system
tenant, declared source OTHER, so bypassAdmission is true) and is not a
heartbeat still enters the store-queue branch, acquires a chargeable store
token, and the later AdmittedKVWorkDone does invoke store completion — the
store branch is gated only on IsWrite and IsSingleHeartbeatTxnRequest, not
on the bypass or admin classification. -/
theorem store_token_bypassed_write_counterexample :
    (mkAdmissionInfo false 0 1
      { isAdmin := false, isWrite := true, isSingleHeartbeatTxnRequest := false,
        isSingleExportRequest := false,
        admissionHeader := { source := Source.other, priority := 0, createTime := 3 },
        storeID := 7 }).bypassAdmission = true ∧
    (AdmitKVWork
      { kvAdmissionQPresent := true, storeQueuePresent := fun _ => true,
        storeAdmitOutcome := Except.ok true, elasticAdmitOutcome := Except.ok true,
        kvAdmitOutcome := Except.ok false, bulkOnlyEnabled := false }
      0 1
      { isAdmin := false, isWrite := true, isSingleHeartbeatTxnRequest := false,
        isSingleExportRequest := false,
        admissionHeader := { source := Source.other, priority := 0, createTime := 3 },
        storeID := 7 }).err = false ∧
    (AdmitKVWork
      { kvAdmissionQPresent := true, storeQueuePresent := fun _ => true,
        storeAdmitOutcome := Except.ok true, elasticAdmitOutcome := Except.ok true,
        kvAdmitOutcome := Except.ok false, bulkOnlyEnabled := false }
      0 1
      { isAdmin := false, isWrite := true, isSingleHeartbeatTxnRequest := false,
        isSingleExportRequest := false,
        admissionHeader := { source := Source.other, priority := 0, createTime := 3 },
        storeID := 7 }).handle.storeAdmissionQ = true ∧
    countP Event.isStoreDone
      (AdmittedKVWorkDone (AdmitKVWork
        { kvAdmissionQPresent := true, storeQueuePresent := fun _ => true,
          storeAdmitOutcome := Except.ok true, elasticAdmitOutcome := Except.ok true,
          kvAdmitOutcome := Except.ok false, bulkOnlyEnabled := false }
        0 1
        { isAdmin := false, isWrite := true, isSingleHeartbeatTxnRequest := false,
          isSingleExportRequest := false,
          admissionHeader := { source := Source.other, priority := 0, createTime := 3 },
          storeID := 7 }).handle none) = 1 := by decide

/-- Claim C4 as amended: for every request handled while the admission
queues are absent, or whose target store has no store queue, or that is not
a write, or that is a single heartbeat-transaction request, the Handle
returned by AdmitKVWork contains no store-queue token, the call itself
reports no store completion, and a subsequent AdmittedKVWorkDone on that
Handle never invokes store-queue completion. (Admin and bypassed write
requests are not exempt: they still pass through the store queue.) -/
theorem store_token_absent_amended (env : Env) (now : Int) (tenantID : Nat)
    (ba : BatchRequest) (wb : Option StoreWriteBytes)
    (h : env.kvAdmissionQPresent = false ∨ env.storeQueuePresent ba.storeID = false ∨
         ba.isWrite = false ∨ ba.isSingleHeartbeatTxnRequest = true) :
    (AdmitKVWork env now tenantID ba).handle.storeAdmissionQ = false ∧
    countP Event.isStoreDone (AdmitKVWork env now tenantID ba).trace = 0 ∧
    countP Event.isStoreDone
      (AdmittedKVWorkDone (AdmitKVWork env now tenantID ba).handle wb) = 0 := by
  have hmain : (AdmitKVWork env now tenantID ba).handle.storeAdmissionQ = false ∧
      countP Event.isStoreDone (AdmitKVWork env now tenantID ba).trace = 0 := by
    obtain ⟨kvp, sqp, sao, eao, kao, bulk⟩ := env
    obtain ⟨adm, wr, hb, ex, hd, sid⟩ := ba
    rcases h with h | h | h | h <;>
      cases kvp <;> cases wr <;> cases hb <;> cases ex <;>
        rcases eao with u2 | hp <;>
          rcases kao with u3 | cf <;>
            simp_all [AdmitKVWork, countP, Event.isStoreDone, Handle.empty]
  refine ⟨hmain.1, hmain.2, ?_⟩
  have h1 := hmain.1
  revert h1
  generalize (AdmitKVWork env now tenantID ba).handle = ah
  intro h1
  obtain ⟨t, sq, eh, cf⟩ := ah
  cases cf <;> cases wb <;>
    simp_all [AdmittedKVWorkDone, countP, Event.isStoreDone]

/-- Witness for store_token_absent_amended: a non-write request admitted
through the general queue holds no store token and its completion makes no
store call. -/
theorem store_token_absent_amended_witness :
    ((AdmitKVWork
        { kvAdmissionQPresent := true, storeQueuePresent := fun _ => true,
          storeAdmitOutcome := Except.ok true, elasticAdmitOutcome := Except.ok true,
          kvAdmitOutcome := Except.ok true, bulkOnlyEnabled := false }
        5 1
        { isAdmin := false, isWrite := false, isSingleHeartbeatTxnRequest := false,
          isSingleExportRequest := false,
          admissionHeader := { source := Source.rootKV, priority := 0, createTime := 3 },
          storeID := 7 }).handle.storeAdmissionQ = false ∧
      countP Event.isStoreDone (AdmitKVWork
        { kvAdmissionQPresent := true, storeQueuePresent := fun _ => true,
          storeAdmitOutcome := Except.ok true, elasticAdmitOutcome := Except.ok true,
          kvAdmitOutcome := Except.ok true, bulkOnlyEnabled := false }
        5 1
        { isAdmin := false, isWrite := false, isSingleHeartbeatTxnRequest := false,
          isSingleExportRequest := false,
          admissionHeader := { source := Source.rootKV, priority := 0, createTime := 3 },
          storeID := 7 }).trace = 0 ∧
      countP Event.isStoreDone
        (AdmittedKVWorkDone (AdmitKVWork
          { kvAdmissionQPresent := true, storeQueuePresent := fun _ => true,
            storeAdmitOutcome := Except.ok true, elasticAdmitOutcome := Except.ok true,
            kvAdmitOutcome := Except.ok true, bulkOnlyEnabled := false }
          5 1
          { isAdmin := false, isWrite := false, isSingleHeartbeatTxnRequest := false,
            isSingleExportRequest := false,
            admissionHeader := { source := Source.rootKV, priority := 0, createTime := 3 },
            storeID := 7 }).handle none) = 0) :=
  store_token_absent_amended
    { kvAdmissionQPresent := true, storeQueuePresent := fun _ => true,
      storeAdmitOutcome := Except.ok true, elasticAdmitOutcome := Except.ok true,
      kvAdmitOutcome := Except.ok true, bulkOnlyEnabled := false }
    5 1
    { isAdmin := false, isWrite := false, isSingleHeartbeatTxnRequest := false,
      isSingleExportRequest := false,
      admissionHeader := { source := Source.rootKV, priority := 0, createTime := 3 },
      storeID := 7 } none (Or.inr (Or.inr (Or.inl rfl)))

end Kvadmission
